import Mathlib

/-!
Verification development for the Smart Job Application Tracker backend.

The backend is a FastAPI application whose persistence layer is a
module-level dictionary `MOCK_DB_STORE` (app/core/database.py) with two
sub-dictionaries: `users` (user_id -> record with optional refresh_token
and resume_text) and `applications` (app_id -> application record).

Shallow embedding conventions:
* Python dictionaries are embedded as association lists preserving
  insertion order (Python dicts preserve insertion order; updating an
  existing key keeps its position, which `setAssoc` mirrors).
* An application record is itself a Python dict with string keys and
  string values, embedded as `List (String × String)`, so that claims
  about which keys a record carries (and about KeyError on a missing
  key) are expressible.
* User records only ever hold the keys `refresh_token` and `resume_text`
  and are read back with `.get`, so they are embedded as a structure of
  two `Option String` fields (absent key = `none`).
* Sources of nondeterminism (random draws, `time.time()`-based ids,
  `datetime.now()`-based dates) are passed in explicitly as oracle
  values.
* Python truthiness on an optional string (`if not x`) is `pyTruthy`.
* Handlers are state-passing: they take the store and return the new
  store together with their result, so frame properties are statable.
* A raised exception that escapes a handler (KeyError, HTTPException)
  is an `Except` error carrying the HTTP status the framework reports.
-/

/-- A Python dict value record for an application: ordered key/value pairs. -/
abbrev AppRecord := List (String × String)

/-- A user record in MOCK_DB_STORE['users']: at most the two keys
`refresh_token` and `resume_text`, each possibly absent. -/
structure UserRec where
  refresh_token : Option String := none
  resume_text : Option String := none
deriving Repr, DecidableEq

/-- The module-level mock datastore MOCK_DB_STORE from app/core/database.py. -/
structure Store where
  users : List (String × UserRec) := []
  applications : List (String × AppRecord) := []
deriving Repr, DecidableEq

/-- Python dict assignment `d[k] = v`: overwrite in place if the key is
present (keeping its position), else append at the end. -/
def setAssoc (k : String) (v : β) : List (String × β) → List (String × β)
  | [] => [(k, v)]
  | (p, w) :: rest => if p = k then (k, v) :: rest else (p, w) :: setAssoc k v rest

/-- Python truthiness of an optional string: `None` and `""` are falsy. -/
def pyTruthy : Option String → Bool
  | none => false
  | some s => !s.isEmpty

/-- `mock_save_user_token` (database.py): create `{}` for an absent user,
then set its `refresh_token` key. -/
def mock_save_user_token (user_id refresh_token : String) (s : Store) : Store :=
  let u := (s.users.lookup user_id).getD {}
  { s with users := setAssoc user_id { u with refresh_token := some refresh_token } s.users }

/-- `mock_get_user_token` (database.py): `users.get(user_id, {}).get('refresh_token')`. -/
def mock_get_user_token (user_id : String) (s : Store) : Option String :=
  (s.users.lookup user_id).bind (·.refresh_token)

/-- `mock_get_user_resume` (database.py): `users.get(user_id, {}).get('resume_text')`. -/
def mock_get_user_resume (user_id : String) (s : Store) : Option String :=
  (s.users.lookup user_id).bind (·.resume_text)

/-- The application record built by `mock_add_application`, with its keys
in the order they are written in the source. -/
def mkAppRecord (user_id app_id company role jd_text interview_date : String) : AppRecord :=
  [("user_id", user_id), ("app_id", app_id), ("company", company), ("role", role),
   ("jd_text", jd_text), ("date", interview_date), ("status", "Upcoming")]

/-- `mock_add_application` (database.py). The generated
`APP-{int(time.time())}-{randint(100,999)}` id is an oracle input. Returns
the new store and the stored record. -/
def mock_add_application (user_id company role jd_text interview_date app_id : String)
    (s : Store) : Store × AppRecord :=
  let r := mkAppRecord user_id app_id company role jd_text interview_date
  ({ s with applications := setAssoc app_id r s.applications }, r)

/-- Reading `app_data['user_id']` in the list comprehension of
`mock_get_applications`: a missing key raises KeyError. -/
def recUserId (r : AppRecord) : Except String String :=
  match r.lookup "user_id" with
  | some u => .ok u
  | none => .error "KeyError: user_id"

/-- The list comprehension of `mock_get_applications`, over the
(app_id, record) pairs in insertion order. -/
def filterByUser (user_id : String) : List (String × AppRecord) → Except String (List AppRecord)
  | [] => .ok []
  | (_, r) :: rest =>
    match recUserId r with
    | .error e => .error e
    | .ok u =>
      match filterByUser user_id rest with
      | .error e => .error e
      | .ok tl => .ok (if u = user_id then r :: tl else tl)

/-- `mock_get_applications` (database.py): the records whose `user_id`
field equals the argument; a record with no `user_id` key raises. -/
def mock_get_applications (user_id : String) (s : Store) : Except String (List AppRecord) :=
  filterByUser user_id s.applications

example : mock_get_applications "u" { } = .ok [] := rfl

example :
    (mock_add_application "u" "MegaCorp" "Intern" "jd" "2025-01-01" "APP-1" { }).1.applications
      = [("APP-1", mkAppRecord "u" "APP-1" "MegaCorp" "Intern" "jd" "2025-01-01")] := rfl

/-! ## AI prep service (app/services/ai_prep.py) -/

/-- Python's `pat in s` substring test. -/
def strContains (s pat : String) : Bool := decide (pat.toList <:+: s.toList)

/-- `random.uniform(a, b)`: `a + (b - a) * random()`, with the draw `u`
of `random.random()` an oracle input. Rationals model the float
arithmetic. -/
def pyUniform (a b u : ℚ) : ℚ := a + (b - a) * u

/-- Python `round(x, 2)` modelled over ℚ: round to the nearest multiple
of 1/100. (Python rounds float ties to even; the properties proved here
do not depend on the tie rule.) -/
def round2 (x : ℚ) : ℚ := (round (x * 100) : ℤ) / 100

/-- The structured response of the mock OpenAI client / the
`PrepTipsResponse` schema (app/models/schemas.py). -/
structure PrepTipsResponse where
  key_topics_to_revise : List String
  likely_behavioral_questions : List String
  likely_technical_questions : List String
  match_confidence : ℚ
  match_feedback : String
deriving Repr, DecidableEq

/-- The `AIPrepRequest` schema (app/models/schemas.py). -/
structure AIPrepRequest where
  app_id : String
  user_id : String
deriving Repr, DecidableEq

/-- Feedback string of the "Senior Backend Engineer" branch. -/
def feedbackSenior : String :=
  "The JD requires 5+ years experience and deep AWS expertise, which is lightly documented in your 3-year resume. Focus heavily on quantifying project results and proving cloud proficiency."

/-- Feedback string of the "Junior Data Scientist" branch. -/
def feedbackJunior : String :=
  "Your profile is highly compatible with this role's statistical modeling focus. Ensure you have clear STAR examples for data cleaning and visualization challenges."

/-- Feedback string of the default branch. -/
def feedbackDefault : String :=
  "Good compatibility. Focus on demonstrating transferable skills in Git workflows and problem-solving scenarios during the interview."

/-- `MockOpenAIClient.analyze_documents` (ai_prep.py). `u` is the oracle
draw of `random.random()` inside `random.uniform`. -/
def analyze_documents (jd_text resume_text : String) (u : ℚ) : PrepTipsResponse :=
  let cf : ℚ × String :=
    if strContains jd_text "Senior Backend Engineer" then
      (round2 (pyUniform 0.40 0.55 u), feedbackSenior)
    else if strContains jd_text "Junior Data Scientist" then
      (round2 (pyUniform 0.80 0.95 u), feedbackJunior)
    else
      (round2 (pyUniform 0.60 0.75 u), feedbackDefault)
  { key_topics_to_revise := [
      "Reviewing the difference between synchronous and asynchronous architectures.",
      "Deep dive into multi-threading and concurrency concepts in Python.",
      "Practice explaining the CI/CD pipeline used in Project X (from your resume)."],
    likely_behavioral_questions := [
      "Tell me about a time you handled a critical deployment failure.",
      "Describe a complex system bug you solved, and how you tracked it.",
      "How do you handle disagreements with a senior developer on a technical design choice?"],
    likely_technical_questions := [
      "Explain the CAP theorem and its relevance to database design.",
      "Walk me through the design of a resilient microservice.",
      "What are the benefits of using FastAPI over Flask in a large-scale project?"],
    match_confidence := cf.1,
    match_feedback := cf.2 }

/-- An HTTPException (or an unhandled exception as the framework reports
it): status code and detail. -/
structure HTTPError where
  status_code : Nat
  detail : String
deriving Repr, DecidableEq

/-- The `POST /api/ai/prep` handler `generate_prep_tips` (ai_prep.py),
state-passing. `if not app_data:` is Python truthiness on the record
dict: a missing *or empty* record yields the 404. The handler never
writes to the store, so it returns the store it was given alongside the
outcome. -/
def generate_prep_tips (req : AIPrepRequest) (u : ℚ) (s : Store) :
    Store × Except HTTPError PrepTipsResponse :=
  let resume_text := mock_get_user_resume req.user_id s
  if !pyTruthy resume_text then
    (s, .error ⟨404, "User resume not found. Please upload it via the dashboard."⟩)
  else
    match s.applications.lookup req.app_id with
    | none => (s, .error ⟨404, "Application data not found for ID: " ++ req.app_id ++ "."⟩)
    | some app_data =>
      if app_data.isEmpty then
        (s, .error ⟨404, "Application data not found for ID: " ++ req.app_id ++ "."⟩)
      else
        match app_data.lookup "jd_text" with
        | none => (s, .error ⟨500, "KeyError: jd_text"⟩)
        | some jd_text =>
          (s, .ok (analyze_documents jd_text (resume_text.getD "") u))

example : strContains "a Senior Backend Engineer role" "Senior Backend Engineer" = true := by decide

/-! ## Scheduler / Gmail-Calendar service (app/services/gmail_calendar.py) -/

/-- The module-level MOCK_JDS dictionary, in insertion order. -/
def MOCK_JDS : List (String × String) :=
  [("JD-001", "Senior Backend Engineer role requires 5+ years experience in Python, FastAPI, and PostgreSQL. Must be proficient in REST/gRPC, Docker, and Kubernetes deployment. Deep understanding of cloud-native architecture (AWS) is crucial."),
   ("JD-002", "Junior Data Scientist opening focusing on statistical modeling, predictive analysis using scikit-learn and pandas. Experience with data visualization (Matplotlib) is a plus. Basic SQL knowledge required."),
   ("JD-003", "DevOps Associate opening for freshers. Focus on CI/CD pipelines, Git, and basic system administration on Linux. Cloud experience is not mandatory but highly preferred."),
   ("JD-004", "SDE Intern requiring strong foundational knowledge in data structures and algorithms, primarily in Java or Python. Exposure to web development frameworks (like Streamlit!) is beneficial.")]

/-- `list(MOCK_JDS.values())`. -/
def MOCK_JDS_values : List String := MOCK_JDS.map Prod.snd

/-- Observable side effects of the background checker other than store
writes: `time.sleep` and console prints. -/
inductive Effect where
  | sleep (secs : Nat)
  | printed (msg : String)
deriving Repr, DecidableEq

/-- `random.choice(l)`: pick the element at an oracle index (the oracle
index is reduced modulo the length; the source lists are nonempty, so
the default is never consulted). -/
def pyChoice (l : List String) (i : Nat) : String := l.getD (i % l.length) ""

/-- Oracle inputs of one run of `check_gmail_and_schedule`: the
`random.random()` coin, the three `random.choice` indices, the
`datetime.now() + timedelta(days=randint(3,10))` ISO date, and the
time-based app id generated inside `mock_add_application`. -/
structure CheckerOracle where
  draw : ℚ
  companyIdx : Nat
  roleIdx : Nat
  jdIdx : Nat
  interviewDate : String
  appId : String
deriving Repr

/-- The background task `check_gmail_and_schedule` (gmail_calendar.py):
skip when the stored refresh token is falsy; otherwise sleep one second
and, on a coin flip below 0.5, store one new application built from
random choices. Returns the new store and the effect trace. -/
def check_gmail_and_schedule (user_id : String) (o : CheckerOracle) (s : Store) :
    Store × List Effect :=
  let refresh_token := mock_get_user_token user_id s
  if !pyTruthy refresh_token then
    (s, [.printed ("[" ++ user_id ++ "] Checker: Token not found, skipping check.")])
  else
    let pre : List Effect :=
      [.printed ("[" ++ user_id ++ "] Checker: Starting Gmail check..."), .sleep 1]
    if o.draw < 0.5 then
      let company := pyChoice ["MegaCorp", "AlphaTech", "GlobalSoft"] o.companyIdx
      let role := pyChoice ["Software Engineer", "Data Analyst", "Intern"] o.roleIdx
      let jd_text := pyChoice MOCK_JDS_values o.jdIdx
      let res := mock_add_application user_id company role jd_text o.interviewDate o.appId s
      (res.1, pre ++ [.printed ("[" ++ user_id ++ "] Checker: New Interview Found and Scheduled: "
        ++ ((res.2.lookup "company").getD "") ++ "!")])
    else
      (s, pre ++ [.printed ("[" ++ user_id ++ "] Checker: No new interview emails found.")])

/-- Oracle inputs of one run of `get_applications_list`: the generated
app ids and `datetime.now()`-based ISO dates of the three demo inserts. -/
structure ListOracle where
  appId1 : String
  appId2 : String
  appId3 : String
  date1 : String
  date2 : String
  date3 : String
deriving Repr

/-- The date-conversion loop of `get_applications_list`: reading
`app['interview_date']` raises KeyError when the key is absent. (The
`datetime.fromisoformat` value is kept as its ISO string; no execution
reaches the conversion, because the read fails first.) -/
def convertDates : List AppRecord → Except String (List AppRecord)
  | [] => .ok []
  | r :: rest =>
    match r.lookup "interview_date" with
    | none => .error "KeyError: interview_date"
    | some d =>
      match convertDates rest with
      | .error e => .error e
      | .ok tl => .ok (setAssoc "interview_date" d r :: tl)

/-- The three demo inserts of `get_applications_list`, run when the user
has no applications. -/
def addDemoApplications (user_id : String) (o : ListOracle) (s : Store) : Store :=
  let s1 := (mock_add_application user_id "TechCorp Solutions" "Senior Backend Engineer"
    ((MOCK_JDS.lookup "JD-001").getD "") o.date1 o.appId1 s).1
  let s2 := (mock_add_application user_id "Innovate Systems" "Junior Data Scientist"
    ((MOCK_JDS.lookup "JD-002").getD "") o.date2 o.appId2 s1).1
  (mock_add_application user_id "Aurora Labs" "SDE Intern"
    ((MOCK_JDS.lookup "JD-004").getD "") o.date3 o.appId3 s2).1

/-- The `GET /api/scheduler/applications/{user_id}` handler
`get_applications_list` (gmail_calendar.py), state-passing: insert the
demo data when the user has none, re-read, then convert dates. An
unhandled KeyError surfaces as a 500. -/
def get_applications_list (user_id : String) (o : ListOracle) (s : Store) :
    Store × Except HTTPError (List AppRecord) :=
  match mock_get_applications user_id s with
  | .error e => (s, .error ⟨500, e⟩)
  | .ok apps0 =>
    let s1 := if apps0.isEmpty then addDemoApplications user_id o s else s
    match mock_get_applications user_id s1 with
    | .error e => (s1, .error ⟨500, e⟩)
    | .ok app_data =>
      match convertDates app_data with
      | .error e => (s1, .error ⟨500, e⟩)
      | .ok converted => (s1, .ok converted)

/-- The `POST /api/scheduler/mock-save-resume/{user_id}` handler
(gmail_calendar.py): create `{}` for an absent user, then set its
`resume_text` key. -/
def mock_save_resume_endpoint (user_id resume_text : String) (s : Store) : Store × String :=
  let u := (s.users.lookup user_id).getD {}
  ({ s with users := setAssoc user_id { u with resume_text := some resume_text } s.users },
   "Mock resume saved successfully.")

/-! ## Auth service (app/services/auth.py) -/

/-- The `GET /auth/user/status` response. -/
structure UserStatus where
  authenticated : Bool
  message : String
deriving Repr, DecidableEq

/-- The `GET /auth/user/status` handler `get_user_status` (auth.py),
state-passing (it only reads). -/
def get_user_status (user_id : String) (s : Store) : Store × UserStatus :=
  if pyTruthy (mock_get_user_token user_id s) then
    (s, ⟨true, "User token active."⟩)
  else
    (s, ⟨false, "User needs to authenticate via OAuth."⟩)

/-- The store write of the `GET /auth/google/callback` handler (auth.py):
`if credentials.refresh_token: mock_save_user_token(user_id, ...)`. The
token Google returned is an oracle input; a falsy token is not saved. -/
def callback_save_token (user_id refresh_token : String) (s : Store) : Store :=
  if !refresh_token.isEmpty then mock_save_user_token user_id refresh_token s else s

/-! ## The backend's operations on the mock store -/

/-- One invocation of any backend operation that touches MOCK_DB_STORE,
with its oracle inputs. `startCheck` is the background task the
`POST /api/scheduler/start-check` endpoint spawns. -/
inductive Op where
  | oauthCallback (user_id refresh_token : String)
  | userStatus (user_id : String)
  | startCheck (user_id : String) (o : CheckerOracle)
  | getApplications (user_id : String) (o : ListOracle)
  | saveResume (user_id resume_text : String)
  | prep (req : AIPrepRequest) (u : ℚ)

/-- The store transition of an operation. -/
def Op.apply : Op → Store → Store
  | .oauthCallback uid tok, s => callback_save_token uid tok s
  | .userStatus uid, s => (get_user_status uid s).1
  | .startCheck uid o, s => (check_gmail_and_schedule uid o s).1
  | .getApplications uid o, s => (get_applications_list uid o s).1
  | .saveResume uid txt, s => (mock_save_resume_endpoint uid txt s).1
  | .prep req u, s => (generate_prep_tips req u s).1

/-- The app ids an operation generates from time/randomness and hands to
`mock_add_application`. Inserting under an id already present would
overwrite (Python dict assignment), so freshness assumptions are stated
in terms of this set. -/
def Op.generatedIds : Op → List String
  | .startCheck _ o => [o.appId]
  | .getApplications _ o => [o.appId1, o.appId2, o.appId3]
  | _ => []

/-- Freshness of an operation's generated app ids at a store: the ids
are pairwise distinct and not already keys of the applications dict. -/
def Op.fresh (op : Op) (s : Store) : Prop :=
  op.generatedIds.Nodup ∧ ∀ i ∈ op.generatedIds, s.applications.lookup i = none

/-- Well-formedness of the applications dict: every stored record was
built by `mock_add_application` (the only code path that inserts one). -/
def WFApps (s : Store) : Prop :=
  ∀ p ∈ s.applications,
    ∃ uid aid c ro jd d, p.2 = mkAppRecord uid aid c ro jd d

/-- Token well-formedness: every stored refresh token is nonempty (the
OAuth callback only saves a token the library reports as truthy). -/
def WFTokens (s : Store) : Prop :=
  ∀ uid t, mock_get_user_token uid s = some t → t.isEmpty = false

/-! ## Association-list lemmas -/

theorem lookup_cons_pair (a k : String) (b : β) (es : List (String × β)) :
    ((k, b) :: es).lookup a = if a = k then some b else es.lookup a := by
  rw [List.lookup_cons]
  by_cases h : a = k
  · simp [beq_iff_eq.mpr h, h]
  · simp [beq_eq_false_iff_ne.mpr h, h]

theorem lookup_setAssoc_self (k : String) (v : β) (l : List (String × β)) :
    (setAssoc k v l).lookup k = some v := by
  induction l with
  | nil => simp [setAssoc]
  | cons p rest ih =>
    obtain ⟨a, b⟩ := p
    by_cases h : a = k
    · simp [setAssoc, h, lookup_cons_pair]
    · simp only [setAssoc, h, if_false]
      rw [lookup_cons_pair, if_neg (fun he => h he.symm), ih]

theorem lookup_setAssoc_ne (k q : String) (v : β) (l : List (String × β)) (h : q ≠ k) :
    (setAssoc k v l).lookup q = l.lookup q := by
  induction l with
  | nil => simp [setAssoc, lookup_cons_pair, h]
  | cons p rest ih =>
    obtain ⟨a, b⟩ := p
    by_cases hp : a = k
    · subst hp
      simp only [setAssoc, if_true]
      rw [lookup_cons_pair, lookup_cons_pair, if_neg h, if_neg h]
    · simp only [setAssoc, hp, if_false]
      rw [lookup_cons_pair, lookup_cons_pair, ih]

theorem setAssoc_of_lookup_none (k : String) (v : β) (l : List (String × β))
    (h : l.lookup k = none) : setAssoc k v l = l ++ [(k, v)] := by
  induction l with
  | nil => simp [setAssoc]
  | cons p rest ih =>
    obtain ⟨a, b⟩ := p
    rw [lookup_cons_pair] at h
    by_cases hk : k = a
    · simp [hk] at h
    · rw [if_neg hk] at h
      have hne : a ≠ k := fun he => hk he.symm
      simp [setAssoc, hne, ih h]

theorem mem_setAssoc (k : String) (v : β) (l : List (String × β)) (p : String × β)
    (h : p ∈ setAssoc k v l) : p ∈ l ∨ p = (k, v) := by
  induction l with
  | nil => simp [setAssoc] at h; simp [h]
  | cons q rest ih =>
    by_cases hq : q.1 = k
    · simp only [setAssoc, hq, if_true] at h
      rcases List.mem_cons.mp h with h1 | h2
      · right; exact h1
      · left; exact List.mem_cons_of_mem _ h2
    · simp only [setAssoc, hq, if_false] at h
      rcases List.mem_cons.mp h with h1 | h2
      · left; exact h1 ▸ List.mem_cons_self _ _
      · rcases ih h2 with h3 | h4
        · left; exact List.mem_cons_of_mem _ h3
        · right; exact h4

theorem lookup_append_of_some (k : String) (v : β) (l m : List (String × β))
    (h : l.lookup k = some v) : (l ++ m).lookup k = some v := by
  rw [List.lookup_append, h]; rfl

theorem lookup_append_of_none (k : String) (l m : List (String × β))
    (h : l.lookup k = none) : (l ++ m).lookup k = m.lookup k := by
  rw [List.lookup_append, h]; rfl

/-! ## Record-shape lemmas -/

theorem mkAppRecord_lookup_user_id (uid aid c ro jd d : String) :
    (mkAppRecord uid aid c ro jd d).lookup "user_id" = some uid := by
  simp [mkAppRecord, lookup_cons_pair]

theorem mkAppRecord_lookup_status (uid aid c ro jd d : String) :
    (mkAppRecord uid aid c ro jd d).lookup "status" = some "Upcoming" := by
  simp [mkAppRecord, lookup_cons_pair]

theorem mkAppRecord_lookup_jd_text (uid aid c ro jd d : String) :
    (mkAppRecord uid aid c ro jd d).lookup "jd_text" = some jd := by
  simp [mkAppRecord, lookup_cons_pair]

theorem mkAppRecord_lookup_interview_date (uid aid c ro jd d : String) :
    (mkAppRecord uid aid c ro jd d).lookup "interview_date" = none := by
  simp [mkAppRecord, lookup_cons_pair]

theorem mkAppRecord_keys (uid aid c ro jd d : String) :
    (mkAppRecord uid aid c ro jd d).map Prod.fst
      = ["user_id", "app_id", "company", "role", "jd_text", "date", "status"] := by
  simp [mkAppRecord]

theorem recUserId_mkAppRecord (uid aid c ro jd d : String) :
    recUserId (mkAppRecord uid aid c ro jd d) = .ok uid := by
  simp [recUserId, mkAppRecord_lookup_user_id]

/-! ## Characterization of mock_get_applications on well-formed stores -/

theorem filterByUser_eq_filter (uid : String) (l : List (String × AppRecord))
    (h : ∀ p ∈ l, ∃ u2 a2 c2 r2 j2 d2, p.2 = mkAppRecord u2 a2 c2 r2 j2 d2) :
    filterByUser uid l =
      .ok ((l.map Prod.snd).filter (fun r => r.lookup "user_id" == some uid)) := by
  induction l with
  | nil => rfl
  | cons p rest ih =>
    obtain ⟨a, r⟩ := p
    obtain ⟨u2, a2, c2, r2, j2, d2, hr⟩ := h (a, r) (List.mem_cons_self _ _)
    simp only at hr
    subst hr
    have hrest := ih (fun q hq => h q (List.mem_cons_of_mem _ hq))
    simp only [filterByUser, recUserId_mkAppRecord, hrest, List.map_cons, List.filter_cons,
      mkAppRecord_lookup_user_id]
    by_cases hu : u2 = uid
    · simp [hu]
    · simp [hu, beq_eq_false_iff_ne.mpr hu]

theorem mock_get_applications_eq_filter (uid : String) (s : Store) (h : WFApps s) :
    mock_get_applications uid s =
      .ok ((s.applications.map Prod.snd).filter (fun r => r.lookup "user_id" == some uid)) :=
  filterByUser_eq_filter uid s.applications h

/-! ## Sample stores for concrete evaluations -/

def recAlice : AppRecord := mkAppRecord "alice" "A1" "MegaCorp" "Intern" "jd1" "2025-01-01"

def recBob : AppRecord := mkAppRecord "bob" "B1" "AlphaTech" "Intern" "jd2" "2025-01-02"

def storeTwoApps : Store := { users := [], applications := [("A1", recAlice), ("B1", recBob)] }

def storeAliceTok : Store :=
  { users := [("alice", { refresh_token := some "tok-1", resume_text := none })],
    applications := [] }

def storeAliceFull : Store :=
  { users := [("alice", { refresh_token := some "tok-1", resume_text := some "my resume" })],
    applications := [("A1", recAlice)] }

def oracleChecker : CheckerOracle :=
  { draw := 0, companyIdx := 0, roleIdx := 0, jdIdx := 0,
    interviewDate := "2025-01-05T10:00:00", appId := "APP-X" }

def oracleList : ListOracle :=
  { appId1 := "APP-D1", appId2 := "APP-D2", appId3 := "APP-D3",
    date1 := "2025-01-03T09:00:00", date2 := "2025-01-06T09:00:00",
    date3 := "2025-01-16T09:00:00" }

/-- The record the checker inserts when it fires. -/
def checkerRec (uid : String) (o : CheckerOracle) : AppRecord :=
  mkAppRecord uid o.appId
    (pyChoice ["MegaCorp", "AlphaTech", "GlobalSoft"] o.companyIdx)
    (pyChoice ["Software Engineer", "Data Analyst", "Intern"] o.roleIdx)
    (pyChoice MOCK_JDS_values o.jdIdx) o.interviewDate

/-- The first demo record `get_applications_list` inserts. -/
def demoRec1 (uid : String) (o : ListOracle) : AppRecord :=
  mkAppRecord uid o.appId1 "TechCorp Solutions" "Senior Backend Engineer"
    ((MOCK_JDS.lookup "JD-001").getD "") o.date1

/-- The second demo record `get_applications_list` inserts. -/
def demoRec2 (uid : String) (o : ListOracle) : AppRecord :=
  mkAppRecord uid o.appId2 "Innovate Systems" "Junior Data Scientist"
    ((MOCK_JDS.lookup "JD-002").getD "") o.date2

/-- The third demo record `get_applications_list` inserts. -/
def demoRec3 (uid : String) (o : ListOracle) : AppRecord :=
  mkAppRecord uid o.appId3 "Aurora Labs" "SDE Intern"
    ((MOCK_JDS.lookup "JD-004").getD "") o.date3

/-! ## Rounding and uniform-draw bounds -/

theorem round_le_round_q (x y : ℚ) (h : x ≤ y) : round x ≤ round y := by
  rw [round_eq, round_eq]
  exact Int.floor_le_floor (by linarith)

theorem round2_bounds (ka kb : ℤ) (x : ℚ)
    (h1 : (ka : ℚ) / 100 ≤ x) (h2 : x ≤ (kb : ℚ) / 100) :
    (ka : ℚ) / 100 ≤ round2 x ∧ round2 x ≤ (kb : ℚ) / 100 := by
  have hx1 : (ka : ℚ) ≤ x * 100 := by linarith
  have hx2 : x * 100 ≤ (kb : ℚ) := by linarith
  have r1 : ka ≤ round (x * 100) := by
    have := round_le_round_q (ka : ℚ) (x * 100) hx1
    rwa [round_intCast] at this
  have r2 : round (x * 100) ≤ kb := by
    have := round_le_round_q (x * 100) (kb : ℚ) hx2
    rwa [round_intCast] at this
  have c1 : (ka : ℚ) ≤ ((round (x * 100) : ℤ) : ℚ) := by exact_mod_cast r1
  have c2 : ((round (x * 100) : ℤ) : ℚ) ≤ (kb : ℚ) := by exact_mod_cast r2
  unfold round2
  constructor <;> linarith

theorem pyUniform_mem (a b u : ℚ) (hab : a ≤ b) (h0 : 0 ≤ u) (h1 : u ≤ 1) :
    a ≤ pyUniform a b u ∧ pyUniform a b u ≤ b := by
  unfold pyUniform
  constructor <;> nlinarith

theorem round2_pyUniform_bounds (ka kb : ℤ) (u : ℚ) (h0 : 0 ≤ u) (h1 : u ≤ 1)
    (hab : (ka : ℚ) / 100 ≤ (kb : ℚ) / 100) :
    (ka : ℚ) / 100 ≤ round2 (pyUniform ((ka : ℚ) / 100) ((kb : ℚ) / 100) u) ∧
      round2 (pyUniform ((ka : ℚ) / 100) ((kb : ℚ) / 100) u) ≤ (kb : ℚ) / 100 := by
  obtain ⟨m1, m2⟩ := pyUniform_mem ((ka : ℚ) / 100) ((kb : ℚ) / 100) u hab h0 h1
  exact round2_bounds ka kb _ m1 m2


/-! ## Claim theorems -/

/-- C1: `MockOpenAIClient.analyze_documents` branches on substring tests
of the JD: a JD containing "Senior Backend Engineer" yields a confidence
in [0.40, 0.55] and the fixed low-match feedback; otherwise one
containing "Junior Data Scientist" yields a confidence in [0.80, 0.95]
and the fixed high-match feedback; any other JD yields a confidence in
[0.60, 0.75] and the fixed default feedback. -/
theorem C1_analyze_documents_branches (jd rt : String) (u : ℚ)
    (h0 : 0 ≤ u) (h1 : u ≤ 1) :
    (strContains jd "Senior Backend Engineer" = true →
      (0.40 : ℚ) ≤ (analyze_documents jd rt u).match_confidence ∧
      (analyze_documents jd rt u).match_confidence ≤ 0.55 ∧
      (analyze_documents jd rt u).match_feedback = feedbackSenior) ∧
    (strContains jd "Senior Backend Engineer" = false →
      strContains jd "Junior Data Scientist" = true →
      (0.80 : ℚ) ≤ (analyze_documents jd rt u).match_confidence ∧
      (analyze_documents jd rt u).match_confidence ≤ 0.95 ∧
      (analyze_documents jd rt u).match_feedback = feedbackJunior) ∧
    (strContains jd "Senior Backend Engineer" = false →
      strContains jd "Junior Data Scientist" = false →
      (0.60 : ℚ) ≤ (analyze_documents jd rt u).match_confidence ∧
      (analyze_documents jd rt u).match_confidence ≤ 0.75 ∧
      (analyze_documents jd rt u).match_feedback = feedbackDefault) := by
  refine ⟨fun hs => ?_, fun hs hj => ?_, fun hs hj => ?_⟩
  · have hb := round2_pyUniform_bounds 40 55 u h0 h1 (by norm_num)
    have e40 : ((40 : ℤ) : ℚ) / 100 = 0.40 := by norm_num
    have e55 : ((55 : ℤ) : ℚ) / 100 = 0.55 := by norm_num
    rw [e40, e55] at hb
    simp only [analyze_documents, hs, if_true]
    exact ⟨hb.1, hb.2, trivial⟩
  · have hb := round2_pyUniform_bounds 80 95 u h0 h1 (by norm_num)
    have e80 : ((80 : ℤ) : ℚ) / 100 = 0.80 := by norm_num
    have e95 : ((95 : ℤ) : ℚ) / 100 = 0.95 := by norm_num
    rw [e80, e95] at hb
    simp only [analyze_documents, hs, hj, if_true, Bool.false_eq_true, if_false]
    exact ⟨hb.1, hb.2, trivial⟩
  · have hb := round2_pyUniform_bounds 60 75 u h0 h1 (by norm_num)
    have e60 : ((60 : ℤ) : ℚ) / 100 = 0.60 := by norm_num
    have e75 : ((75 : ℤ) : ℚ) / 100 = 0.75 := by norm_num
    rw [e60, e75] at hb
    simp only [analyze_documents, hs, hj, Bool.false_eq_true, if_false]
    exact ⟨hb.1, hb.2, trivial⟩

/-- Witness for C1 at the JD "Senior Backend Engineer role", draw 1/2. -/
theorem C1_witness :
    (0 : ℚ) ≤ 1/2 ∧ (1/2 : ℚ) ≤ 1 ∧
    strContains "Senior Backend Engineer role" "Senior Backend Engineer" = true ∧
    ((0.40 : ℚ) ≤ (analyze_documents "Senior Backend Engineer role" "a resume" (1/2)).match_confidence ∧
     (analyze_documents "Senior Backend Engineer role" "a resume" (1/2)).match_confidence ≤ 0.55 ∧
     (analyze_documents "Senior Backend Engineer role" "a resume" (1/2)).match_feedback = feedbackSenior) :=
  ⟨by norm_num, by norm_num, by decide,
    (C1_analyze_documents_branches "Senior Backend Engineer role" "a resume" (1/2)
      (by norm_num) (by norm_num)).1 (by decide)⟩

/-- C9: the resume argument of `MockOpenAIClient.analyze_documents` never
influences the topic lists, the question lists, or the feedback: for one
jd_text and any two resume texts these four outputs are identical. -/
theorem C9_resume_independent (jd r1 r2 : String) (u : ℚ) :
    (analyze_documents jd r1 u).key_topics_to_revise
        = (analyze_documents jd r2 u).key_topics_to_revise ∧
    (analyze_documents jd r1 u).likely_behavioral_questions
        = (analyze_documents jd r2 u).likely_behavioral_questions ∧
    (analyze_documents jd r1 u).likely_technical_questions
        = (analyze_documents jd r2 u).likely_technical_questions ∧
    (analyze_documents jd r1 u).match_feedback
        = (analyze_documents jd r2 u).match_feedback :=
  ⟨rfl, rfl, rfl, rfl⟩

/-- C6: `mock_get_applications` returns exactly the stored application
records whose `user_id` field equals the requested user, in store order,
on any store whose records were built by `mock_add_application`. -/
theorem C6_get_applications_exactly_matching (uid : String) (s : Store) (h : WFApps s) :
    mock_get_applications uid s =
      .ok ((s.applications.map Prod.snd).filter
        (fun r => r.lookup "user_id" == some uid)) := by
  have := mock_get_applications_eq_filter uid s h
  exact this

/-- Witness for C6 at a two-user store. -/
theorem C6_witness :
    WFApps storeTwoApps ∧
    mock_get_applications "alice" storeTwoApps = .ok [recAlice] := by
  have hwf : WFApps storeTwoApps := by
    intro p hp
    simp only [storeTwoApps, List.mem_cons, List.not_mem_nil, or_false] at hp
    rcases hp with h1 | h2
    · exact ⟨"alice", "A1", "MegaCorp", "Intern", "jd1", "2025-01-01", by rw [h1]; rfl⟩
    · exact ⟨"bob", "B1", "AlphaTech", "Intern", "jd2", "2025-01-02", by rw [h2]; rfl⟩
  refine ⟨hwf, ?_⟩
  rw [C6_get_applications_exactly_matching "alice" _ hwf]
  rfl

/-- C10: `GET /auth/user/status` reports authenticated exactly when a
refresh token is stored for the user (stored tokens are nonempty: the
OAuth callback only saves a truthy token), and it never writes. -/
theorem C10_user_status (uid : String) (s : Store)
    (h : ∀ t, mock_get_user_token uid s = some t → ¬t.isEmpty) :
    ((get_user_status uid s).2.authenticated = true
        ↔ (mock_get_user_token uid s).isSome) ∧
    (get_user_status uid s).1 = s := by
  unfold get_user_status
  cases htok : mock_get_user_token uid s with
  | none => simp [pyTruthy, htok]
  | some t =>
    have hne := h t htok
    have : pyTruthy (some t) = true := by
      simp [pyTruthy] at hne ⊢
      exact hne
    simp [htok, this]

/-- Witness for C10 at a store holding a token for "alice". -/
theorem C10_witness :
    ((get_user_status "alice" storeAliceTok).2.authenticated = true
      ↔ (mock_get_user_token "alice" storeAliceTok).isSome) ∧
    (get_user_status "alice" storeAliceTok).1 = storeAliceTok :=
  C10_user_status "alice" storeAliceTok
    (by intro t ht
        simp [storeAliceTok, mock_get_user_token, List.lookup] at ht
        subst ht
        decide)

/-- `random.choice` returns a member of a nonempty list. -/
theorem pyChoice_mem (l : List String) (i : Nat) (h : l ≠ []) : pyChoice l i ∈ l := by
  unfold pyChoice
  have hpos : 0 < l.length := List.length_pos.mpr h
  have hlt : i % l.length < l.length := Nat.mod_lt _ hpos
  rw [List.getD_eq_getElem?_getD, List.getElem?_eq_getElem hlt]
  exact List.getElem_mem hlt

/-- A successful association-list lookup exhibits a member. -/
theorem lookup_some_mem (k : String) (v : β) (l : List (String × β))
    (h : l.lookup k = some v) : (k, v) ∈ l := by
  induction l with
  | nil => cases h
  | cons p rest ih =>
    obtain ⟨a, b⟩ := p
    rw [lookup_cons_pair] at h
    by_cases hk : k = a
    · rw [if_pos hk] at h
      rw [Option.some.injEq] at h
      subst h
      subst hk
      exact List.mem_cons_self _ _
    · rw [if_neg hk] at h
      exact List.mem_cons_of_mem _ (ih h)

/-- The prep handler never writes to the store. -/
theorem generate_prep_tips_fst (req : AIPrepRequest) (u : ℚ) (s : Store) :
    (generate_prep_tips req u s).1 = s := by
  cases hres : pyTruthy (mock_get_user_resume req.user_id s) with
  | false => simp [generate_prep_tips, hres]
  | true =>
    cases happ : s.applications.lookup req.app_id with
    | none => simp [generate_prep_tips, hres, happ]
    | some app =>
      cases hemp : app.isEmpty with
      | true => simp [generate_prep_tips, hres, happ, hemp]
      | false =>
        cases hjd : app.lookup "jd_text" with
        | none => simp [generate_prep_tips, hres, happ, hemp, hjd]
        | some jd => simp [generate_prep_tips, hres, happ, hemp, hjd]

/-- Exhaustive case analysis of the prep handler's outcome. -/
theorem generate_prep_tips_cases (req : AIPrepRequest) (u : ℚ) (s : Store) :
    (pyTruthy (mock_get_user_resume req.user_id s) = false ∧
      (generate_prep_tips req u s).2 = Except.error
        ⟨404, "User resume not found. Please upload it via the dashboard."⟩) ∨
    (pyTruthy (mock_get_user_resume req.user_id s) = true ∧
      s.applications.lookup req.app_id = none ∧
      (generate_prep_tips req u s).2 = Except.error
        ⟨404, "Application data not found for ID: " ++ req.app_id ++ "."⟩) ∨
    (∃ app, pyTruthy (mock_get_user_resume req.user_id s) = true ∧
      s.applications.lookup req.app_id = some app ∧
      app.isEmpty = true ∧
      (generate_prep_tips req u s).2 = Except.error
        ⟨404, "Application data not found for ID: " ++ req.app_id ++ "."⟩) ∨
    (∃ app, pyTruthy (mock_get_user_resume req.user_id s) = true ∧
      s.applications.lookup req.app_id = some app ∧
      app.isEmpty = false ∧
      app.lookup "jd_text" = none ∧
      (generate_prep_tips req u s).2 = Except.error ⟨500, "KeyError: jd_text"⟩) ∨
    (∃ app jd, pyTruthy (mock_get_user_resume req.user_id s) = true ∧
      s.applications.lookup req.app_id = some app ∧
      app.isEmpty = false ∧
      app.lookup "jd_text" = some jd ∧
      (generate_prep_tips req u s).2 = Except.ok
        (analyze_documents jd ((mock_get_user_resume req.user_id s).getD "") u)) := by
  cases hres : pyTruthy (mock_get_user_resume req.user_id s) with
  | false => exact Or.inl ⟨rfl, by simp [generate_prep_tips, hres]⟩
  | true =>
    cases happ : s.applications.lookup req.app_id with
    | none => exact Or.inr (Or.inl ⟨rfl, rfl, by simp [generate_prep_tips, hres, happ]⟩)
    | some app =>
      cases hemp : app.isEmpty with
      | true =>
        exact Or.inr (Or.inr (Or.inl
          ⟨app, rfl, rfl, hemp, by simp [generate_prep_tips, hres, happ, hemp]⟩))
      | false =>
        cases hjd : app.lookup "jd_text" with
        | none =>
          exact Or.inr (Or.inr (Or.inr (Or.inl
            ⟨app, rfl, rfl, hemp, hjd,
              by simp [generate_prep_tips, hres, happ, hemp, hjd]⟩)))
        | some jd =>
          exact Or.inr (Or.inr (Or.inr (Or.inr
            ⟨app, jd, rfl, rfl, hemp, hjd,
              by simp [generate_prep_tips, hres, happ, hemp, hjd]⟩)))

/-- C3: on reachable stores (every stored application record was built
by `mock_add_application`, the invariant of `WFApps_preserved`), the
prep endpoint 404s exactly when the user has no non-empty stored resume
or no application record exists under the requested app_id; it never
writes to the store; and in the success case its result is the analysis
of the stored JD text and resume text. -/
theorem C3_prep_404_iff (req : AIPrepRequest) (u : ℚ) (s : Store) (hwf : WFApps s) :
    ((∃ e, (generate_prep_tips req u s).2 = Except.error e ∧ e.status_code = 404)
        ↔ (pyTruthy (mock_get_user_resume req.user_id s) = false
            ∨ s.applications.lookup req.app_id = none)) ∧
    (generate_prep_tips req u s).1 = s ∧
    (∀ rt app jd, mock_get_user_resume req.user_id s = some rt → rt.isEmpty = false →
      s.applications.lookup req.app_id = some app →
      app.lookup "jd_text" = some jd →
      (generate_prep_tips req u s).2 = Except.ok (analyze_documents jd rt u)) := by
  have hnonempty : ∀ app, s.applications.lookup req.app_id = some app →
      app.isEmpty = false := by
    intro app happ
    obtain ⟨u2, a2, c2, r2, j2, d2, hrec⟩ :=
      hwf (req.app_id, app) (lookup_some_mem _ _ _ happ)
    simp only at hrec
    rw [hrec]
    rfl
  refine ⟨⟨?_, ?_⟩, generate_prep_tips_fst req u s, ?_⟩
  · rintro ⟨e, he, h404⟩
    rcases generate_prep_tips_cases req u s with
      ⟨hres, hout⟩ | ⟨hres, happ, hout⟩ | ⟨app, hres, happ, hemp, hout⟩ |
      ⟨app, hres, happ, hemp, hjd, hout⟩ | ⟨app, jd, hres, happ, hemp, hjd, hout⟩
    · exact Or.inl hres
    · exact Or.inr happ
    · rw [hnonempty app happ] at hemp
      cases hemp
    · rw [hout] at he
      rw [Except.error.injEq] at he
      rw [← he] at h404
      simp at h404
    · rw [hout] at he
      cases he
  · rintro (h | h) <;>
      rcases generate_prep_tips_cases req u s with
        ⟨hres, hout⟩ | ⟨hres, happ, hout⟩ | ⟨app, hres, happ, hemp, hout⟩ |
        ⟨app, hres, happ, hemp, hjd, hout⟩ | ⟨app, jd, hres, happ, hemp, hjd, hout⟩
    · exact ⟨_, hout, rfl⟩
    · rw [hres] at h; cases h
    · rw [hres] at h; cases h
    · rw [hres] at h; cases h
    · rw [hres] at h; cases h
    · exact ⟨_, hout, rfl⟩
    · exact ⟨_, hout, rfl⟩
    · exact ⟨_, hout, rfl⟩
    · rw [happ] at h; cases h
    · rw [happ] at h; cases h
  · intro rt app jd hrt hne happ hjd
    rcases generate_prep_tips_cases req u s with
      ⟨hres, hout⟩ | ⟨hres, happ2, hout⟩ | ⟨app2, hres, happ2, hemp, hout⟩ |
      ⟨app2, hres, happ2, hemp, hjd2, hout⟩ | ⟨app2, jd2, hres, happ2, hemp, hjd2, hout⟩
    · rw [hrt] at hres; simp [pyTruthy, hne] at hres
    · rw [happ] at happ2; cases happ2
    · rw [happ] at happ2
      rw [Option.some.injEq] at happ2
      subst happ2
      rw [hnonempty app happ] at hemp
      cases hemp
    · rw [happ] at happ2
      rw [Option.some.injEq] at happ2
      subst happ2
      rw [hjd] at hjd2
      cases hjd2
    · rw [happ] at happ2
      rw [Option.some.injEq] at happ2
      subst happ2
      rw [hjd] at hjd2
      rw [Option.some.injEq] at hjd2
      subst hjd2
      rw [hout, hrt]
      rfl

/-- Witness for C3 at a well-formed store with a resume and one
application. -/
theorem C3_witness :
    WFApps storeAliceFull ∧
    mock_get_user_resume "alice" storeAliceFull = some "my resume" ∧
    "my resume".isEmpty = false ∧
    storeAliceFull.applications.lookup "A1" = some recAlice ∧
    recAlice.lookup "jd_text" = some "jd1" ∧
    (generate_prep_tips ⟨"A1", "alice"⟩ (1/2) storeAliceFull).2
      = Except.ok (analyze_documents "jd1" "my resume" (1/2)) := by
  have hwf : WFApps storeAliceFull := by
    intro p hp
    simp only [storeAliceFull, List.mem_cons, List.not_mem_nil, or_false] at hp
    exact ⟨"alice", "A1", "MegaCorp", "Intern", "jd1", "2025-01-01", by rw [hp]; rfl⟩
  refine ⟨hwf, rfl, rfl, rfl, rfl, ?_⟩
  exact (C3_prep_404_iff ⟨"A1", "alice"⟩ (1/2) storeAliceFull hwf).2.2
    "my resume" recAlice "jd1" rfl rfl rfl rfl

/-- C5: the background checker leaves the store unchanged when no
refresh token is stored; with a (nonempty) stored token it sleeps one
second and then, exactly when the coin draw is below 0.5, appends one
new application for the user — status "Upcoming", JD drawn from the four
mock JDs — and otherwise inserts nothing. -/
theorem C5_checker (uid : String) (o : CheckerOracle) (s : Store)
    (hfresh : s.applications.lookup o.appId = none) :
    (mock_get_user_token uid s = none →
      check_gmail_and_schedule uid o s
        = (s, [Effect.printed ("[" ++ uid ++ "] Checker: Token not found, skipping check.")])) ∧
    (∀ t, mock_get_user_token uid s = some t → t.isEmpty = false →
      Effect.sleep 1 ∈ (check_gmail_and_schedule uid o s).2 ∧
      (o.draw < 0.5 →
        ∃ r, (check_gmail_and_schedule uid o s).1
              = { s with applications := s.applications ++ [(o.appId, r)] } ∧
            r.lookup "user_id" = some uid ∧
            r.lookup "status" = some "Upcoming" ∧
            ∃ jd, r.lookup "jd_text" = some jd ∧ jd ∈ MOCK_JDS_values) ∧
      (¬ o.draw < 0.5 → (check_gmail_and_schedule uid o s).1 = s)) := by
  constructor
  · intro h
    simp [check_gmail_and_schedule, h, pyTruthy]
  · intro t ht hne
    have htr : pyTruthy (mock_get_user_token uid s) = true := by
      rw [ht]; simp [pyTruthy, hne]
    refine ⟨?_, ?_, ?_⟩
    · by_cases hd : o.draw < 0.5 <;> simp [check_gmail_and_schedule, htr, hd]
    · intro hd
      refine ⟨mkAppRecord uid o.appId
          (pyChoice ["MegaCorp", "AlphaTech", "GlobalSoft"] o.companyIdx)
          (pyChoice ["Software Engineer", "Data Analyst", "Intern"] o.roleIdx)
          (pyChoice MOCK_JDS_values o.jdIdx) o.interviewDate, ?_, ?_, ?_, ?_⟩
      · simp only [check_gmail_and_schedule, htr, Bool.not_true, Bool.false_eq_true,
          if_false, hd, if_true, mock_add_application]
        rw [setAssoc_of_lookup_none _ _ _ hfresh]
      · exact mkAppRecord_lookup_user_id _ _ _ _ _ _
      · exact mkAppRecord_lookup_status _ _ _ _ _ _
      · exact ⟨pyChoice MOCK_JDS_values o.jdIdx, mkAppRecord_lookup_jd_text _ _ _ _ _ _,
          pyChoice_mem _ _ (by simp [MOCK_JDS_values, MOCK_JDS])⟩
    · intro hd
      simp [check_gmail_and_schedule, htr, hd]

/-- Witness for C5: a user with a stored token and a heads coin draw. -/
theorem C5_witness :
    storeAliceTok.applications.lookup oracleChecker.appId = none ∧
    mock_get_user_token "alice" storeAliceTok = some "tok-1" ∧
    "tok-1".isEmpty = false ∧
    Effect.sleep 1 ∈ (check_gmail_and_schedule "alice" oracleChecker storeAliceTok).2 ∧
    (∃ r, (check_gmail_and_schedule "alice" oracleChecker storeAliceTok).1
          = { storeAliceTok with
              applications := storeAliceTok.applications ++ [(oracleChecker.appId, r)] } ∧
        r.lookup "user_id" = some "alice" ∧
        r.lookup "status" = some "Upcoming" ∧
        ∃ jd, r.lookup "jd_text" = some jd ∧ jd ∈ MOCK_JDS_values) := by
  have h := (C5_checker "alice" oracleChecker storeAliceTok rfl).2 "tok-1" rfl rfl
  exact ⟨rfl, rfl, rfl, h.1, h.2.1 (by norm_num [oracleChecker])⟩

/-- A date-conversion loop whose first record lacks the key fails at once. -/
theorem convertDates_cons_none (r : AppRecord) (rest : List AppRecord)
    (h : r.lookup "interview_date" = none) :
    convertDates (r :: rest) = .error "KeyError: interview_date" := by
  simp [convertDates, h]

theorem storeTwoApps_wf : WFApps storeTwoApps := by
  intro p hp
  simp only [storeTwoApps, List.mem_cons, List.not_mem_nil, or_false] at hp
  rcases hp with h1 | h2
  · exact ⟨"alice", "A1", "MegaCorp", "Intern", "jd1", "2025-01-01", by rw [h1]; rfl⟩
  · exact ⟨"bob", "B1", "AlphaTech", "Intern", "jd2", "2025-01-02", by rw [h2]; rfl⟩

/-- C2: for any user with at least one stored application, the
applications-list handler fails with a KeyError on 'interview_date'
(stored records only carry the key 'date') instead of returning the
list. -/
theorem C2_list_handler_keyerror (uid : String) (o : ListOracle) (s : Store)
    (hwf : WFApps s) (l : List AppRecord)
    (hl : mock_get_applications uid s = .ok l) (hne : l ≠ []) :
    (get_applications_list uid o s).2 = .error ⟨500, "KeyError: interview_date"⟩ := by
  obtain ⟨r, rest, rfl⟩ : ∃ r rest, l = r :: rest := by
    cases l with
    | nil => exact absurd rfl hne
    | cons a b => exact ⟨a, b, rfl⟩
  have hchar := mock_get_applications_eq_filter uid s hwf
  rw [hl] at hchar
  have hl2 : (r :: rest : List AppRecord)
      = (s.applications.map Prod.snd).filter (fun q => q.lookup "user_id" == some uid) :=
    Except.ok.inj hchar
  have hrmem : r ∈ s.applications.map Prod.snd := by
    have hmem : r ∈ (s.applications.map Prod.snd).filter
        (fun q => q.lookup "user_id" == some uid) := by
      rw [← hl2]; exact List.mem_cons_self _ _
    exact List.mem_of_mem_filter hmem
  obtain ⟨p, hp, hpr⟩ := List.mem_map.mp hrmem
  obtain ⟨u2, a2, c2, r2, j2, d2, hrec⟩ := hwf p hp
  have hnone : r.lookup "interview_date" = none := by
    rw [← hpr, hrec]
    exact mkAppRecord_lookup_interview_date _ _ _ _ _ _
  simp only [get_applications_list, hl, List.isEmpty_cons, Bool.false_eq_true, if_false,
    convertDates_cons_none r rest hnone]

/-- Witness for C2: a user with one stored application. -/
theorem C2_witness :
    WFApps storeTwoApps ∧
    mock_get_applications "alice" storeTwoApps = .ok [recAlice] ∧
    ([recAlice] : List AppRecord) ≠ [] ∧
    (get_applications_list "alice" oracleList storeTwoApps).2
      = .error ⟨500, "KeyError: interview_date"⟩ :=
  ⟨storeTwoApps_wf, rfl, List.cons_ne_nil _ _,
    C2_list_handler_keyerror "alice" oracleList storeTwoApps storeTwoApps_wf
      [recAlice] rfl (List.cons_ne_nil _ _)⟩

/-- The store the applications-list handler leaves behind: the demo
inserts happen exactly when the user's first read comes back empty. -/
theorem get_applications_list_fst (uid : String) (o : ListOracle) (s : Store) :
    (get_applications_list uid o s).1
      = match mock_get_applications uid s with
        | .error _ => s
        | .ok apps0 => if apps0.isEmpty then addDemoApplications uid o s else s := by
  unfold get_applications_list
  cases h : mock_get_applications uid s with
  | error e => rfl
  | ok apps0 =>
    cases he : apps0.isEmpty with
    | true =>
      simp only [he, if_true]
      split
      · rfl
      · split <;> rfl
    | false =>
      simp only [he, Bool.false_eq_true, if_false]
      split
      · rfl
      · split <;> rfl

/-- Effect of the three demo inserts on the store, under fresh ids. -/
theorem addDemoApplications_eq (uid : String) (o : ListOracle) (s : Store)
    (h1 : s.applications.lookup o.appId1 = none)
    (h2 : s.applications.lookup o.appId2 = none)
    (h3 : s.applications.lookup o.appId3 = none)
    (h12 : o.appId2 ≠ o.appId1) (h13 : o.appId3 ≠ o.appId1) (h23 : o.appId3 ≠ o.appId2) :
    (addDemoApplications uid o s).applications
      = s.applications ++
        [(o.appId1, demoRec1 uid o), (o.appId2, demoRec2 uid o), (o.appId3, demoRec3 uid o)] ∧
    (addDemoApplications uid o s).users = s.users := by
  constructor
  · show (setAssoc o.appId3 (demoRec3 uid o)
        (setAssoc o.appId2 (demoRec2 uid o)
          (setAssoc o.appId1 (demoRec1 uid o) s.applications))) = _
    rw [setAssoc_of_lookup_none _ _ _ h1]
    have e2 : (s.applications ++ [(o.appId1, demoRec1 uid o)]).lookup o.appId2 = none := by
      rw [lookup_append_of_none _ _ _ h2, lookup_cons_pair, if_neg h12]
      rfl
    rw [setAssoc_of_lookup_none _ _ _ e2]
    have e3 : ((s.applications ++ [(o.appId1, demoRec1 uid o)])
        ++ [(o.appId2, demoRec2 uid o)]).lookup o.appId3 = none := by
      have e3a : (s.applications ++ [(o.appId1, demoRec1 uid o)]).lookup o.appId3 = none := by
        rw [lookup_append_of_none _ _ _ h3, lookup_cons_pair, if_neg h13]
        rfl
      rw [lookup_append_of_none _ _ _ e3a, lookup_cons_pair, if_neg h23]
      rfl
    rw [setAssoc_of_lookup_none _ _ _ e3]
    simp [List.append_assoc]
  · rfl

/-- C7: a user with no stored applications gets exactly the three demo
applications (TechCorp Solutions, Innovate Systems, Aurora Labs)
inserted by the list handler before the read, with every other user's
application list untouched; a user who already has applications gets no
insert. -/
theorem C7_demo_inserts (uid : String) (o : ListOracle) (s : Store) (hwf : WFApps s)
    (h1 : s.applications.lookup o.appId1 = none)
    (h2 : s.applications.lookup o.appId2 = none)
    (h3 : s.applications.lookup o.appId3 = none)
    (h12 : o.appId2 ≠ o.appId1) (h13 : o.appId3 ≠ o.appId1) (h23 : o.appId3 ≠ o.appId2) :
    (mock_get_applications uid s = .ok [] →
      (get_applications_list uid o s).1.applications
          = s.applications ++
            [(o.appId1, demoRec1 uid o), (o.appId2, demoRec2 uid o),
             (o.appId3, demoRec3 uid o)] ∧
      (get_applications_list uid o s).1.users = s.users ∧
      (∀ uid2, uid2 ≠ uid →
        mock_get_applications uid2 (get_applications_list uid o s).1
          = mock_get_applications uid2 s)) ∧
    (∀ l, mock_get_applications uid s = .ok l → l ≠ [] →
      (get_applications_list uid o s).1 = s) := by
  obtain ⟨hadd, huser⟩ := addDemoApplications_eq uid o s h1 h2 h3 h12 h13 h23
  constructor
  · intro hok
    have hfst : (get_applications_list uid o s).1 = addDemoApplications uid o s := by
      rw [get_applications_list_fst, hok]
      rfl
    refine ⟨by rw [hfst, hadd], by rw [hfst, huser], ?_⟩
    intro uid2 hne2
    have hwf2 : WFApps (get_applications_list uid o s).1 := by
      intro p hp
      rw [hfst, hadd] at hp
      rcases List.mem_append.mp hp with hol | hnew
      · exact hwf p hol
      · simp only [List.mem_cons, List.not_mem_nil, or_false] at hnew
        rcases hnew with ha | hb | hc
        · exact ⟨uid, o.appId1, "TechCorp Solutions", "Senior Backend Engineer",
            (MOCK_JDS.lookup "JD-001").getD "", o.date1, by rw [ha]; rfl⟩
        · exact ⟨uid, o.appId2, "Innovate Systems", "Junior Data Scientist",
            (MOCK_JDS.lookup "JD-002").getD "", o.date2, by rw [hb]; rfl⟩
        · exact ⟨uid, o.appId3, "Aurora Labs", "SDE Intern",
            (MOCK_JDS.lookup "JD-004").getD "", o.date3, by rw [hc]; rfl⟩
    rw [mock_get_applications_eq_filter uid2 _ hwf2,
      mock_get_applications_eq_filter uid2 s hwf]
    rw [hfst, hadd, List.map_append, List.filter_append]
    have hcond : ∀ r : AppRecord, r.lookup "user_id" = some uid →
        (r.lookup "user_id" == some uid2) = false := by
      intro r hr
      rw [hr]
      exact beq_eq_false_iff_ne.mpr (fun hh => hne2 (Option.some.inj hh).symm)
    have hd1 : (demoRec1 uid o).lookup "user_id" = some uid :=
      mkAppRecord_lookup_user_id _ _ _ _ _ _
    have hd2 : (demoRec2 uid o).lookup "user_id" = some uid :=
      mkAppRecord_lookup_user_id _ _ _ _ _ _
    have hd3 : (demoRec3 uid o).lookup "user_id" = some uid :=
      mkAppRecord_lookup_user_id _ _ _ _ _ _
    simp [List.filter_cons, hcond _ hd1, hcond _ hd2, hcond _ hd3]
  · intro l hok hne
    rw [get_applications_list_fst, hok]
    cases l with
    | nil => exact absurd rfl hne
    | cons a b => rfl

/-- Witness for C7: a user with no applications gets the three demo rows. -/
theorem C7_witness :
    mock_get_applications "carol" storeAliceTok = .ok [] ∧
    (get_applications_list "carol" oracleList storeAliceTok).1.applications
      = storeAliceTok.applications ++
        [(oracleList.appId1, demoRec1 "carol" oracleList),
         (oracleList.appId2, demoRec2 "carol" oracleList),
         (oracleList.appId3, demoRec3 "carol" oracleList)] ∧
    (get_applications_list "carol" oracleList storeAliceTok).1.users
      = storeAliceTok.users := by
  have hwf0 : WFApps storeAliceTok := by
    intro p hp
    simp [storeAliceTok] at hp
  have h := (C7_demo_inserts "carol" oracleList storeAliceTok hwf0 rfl rfl rfl
      (by decide) (by decide) (by decide)).1 rfl
  exact ⟨rfl, h.1, h.2.1⟩

/-! ## Per-operation store effects -/

theorem lookup_setAssoc_cases (key k : String) (v r : β) (l : List (String × β))
    (h : (setAssoc key v l).lookup k = some r) :
    l.lookup k = some r ∨ r = v := by
  by_cases hk : k = key
  · subst hk
    rw [lookup_setAssoc_self] at h
    exact Or.inr (Option.some.inj h).symm
  · rw [lookup_setAssoc_ne _ _ _ _ hk] at h
    exact Or.inl h

theorem isSome_lookup_setAssoc (key k : String) (v : β) (l : List (String × β))
    (h : (l.lookup k).isSome = true) : ((setAssoc key v l).lookup k).isSome = true := by
  by_cases hk : k = key
  · subst hk
    rw [lookup_setAssoc_self]
    rfl
  · rw [lookup_setAssoc_ne _ _ _ _ hk]
    exact h

theorem get_user_status_fst (uid : String) (s : Store) : (get_user_status uid s).1 = s := by
  unfold get_user_status
  split <;> rfl

theorem check_gmail_fst_cases (uid : String) (o : CheckerOracle) (s : Store) :
    (check_gmail_and_schedule uid o s).1 = s ∨
    (check_gmail_and_schedule uid o s).1
      = { s with applications := setAssoc o.appId (checkerRec uid o) s.applications } := by
  cases htok : pyTruthy (mock_get_user_token uid s) with
  | false => exact Or.inl (by simp [check_gmail_and_schedule, htok])
  | true =>
    by_cases hd : o.draw < 0.5
    · refine Or.inr ?_
      simp only [check_gmail_and_schedule, htok, Bool.not_true, Bool.false_eq_true, if_false,
        hd, if_true, mock_add_application]
      rfl
    · exact Or.inl (by simp [check_gmail_and_schedule, htok, hd])

theorem addDemoApplications_apps (uid : String) (o : ListOracle) (s : Store) :
    (addDemoApplications uid o s).applications
      = setAssoc o.appId3 (demoRec3 uid o)
          (setAssoc o.appId2 (demoRec2 uid o)
            (setAssoc o.appId1 (demoRec1 uid o) s.applications)) := rfl

theorem addDemoApplications_users (uid : String) (o : ListOracle) (s : Store) :
    (addDemoApplications uid o s).users = s.users := rfl

theorem get_applications_list_fst_cases (uid : String) (o : ListOracle) (s : Store) :
    (get_applications_list uid o s).1 = s ∨
    (get_applications_list uid o s).1 = addDemoApplications uid o s := by
  rw [get_applications_list_fst]
  cases h : mock_get_applications uid s with
  | error e => exact Or.inl rfl
  | ok apps0 =>
    cases he : apps0.isEmpty with
    | true => exact Or.inr (by simp [he])
    | false => exact Or.inl (by simp [he])

/-- C8: whenever an operation leaves a record under some app id that was
not there before (or replaces one), the record it wrote was built by
`mock_add_application`: its keys are exactly user_id, app_id, company,
role, jd_text, date, status (in insertion order) and its status is
"Upcoming". -/
theorem C8_inserted_record_shape (op : Op) (s : Store) (k : String) (r : AppRecord)
    (h : (op.apply s).applications.lookup k = some r) :
    s.applications.lookup k = some r ∨
      (r.map Prod.fst = ["user_id", "app_id", "company", "role", "jd_text", "date", "status"] ∧
       r.lookup "status" = some "Upcoming") := by
  cases op with
  | oauthCallback uid tok =>
    have happs : ((Op.oauthCallback uid tok).apply s).applications = s.applications := by
      simp only [Op.apply, callback_save_token]
      split <;> rfl
    rw [happs] at h
    exact Or.inl h
  | userStatus uid =>
    simp only [Op.apply, get_user_status_fst] at h
    exact Or.inl h
  | startCheck uid o =>
    simp only [Op.apply] at h
    rcases check_gmail_fst_cases uid o s with hc | hc
    · rw [hc] at h
      exact Or.inl h
    · rw [hc] at h
      rcases lookup_setAssoc_cases _ _ _ _ _ h with hold | hnew
      · exact Or.inl hold
      · subst hnew
        exact Or.inr ⟨mkAppRecord_keys _ _ _ _ _ _, mkAppRecord_lookup_status _ _ _ _ _ _⟩
  | getApplications uid o =>
    simp only [Op.apply] at h
    rcases get_applications_list_fst_cases uid o s with hc | hc
    · rw [hc] at h
      exact Or.inl h
    · rw [hc, addDemoApplications_apps] at h
      rcases lookup_setAssoc_cases _ _ _ _ _ h with h3 | hnew
      · rcases lookup_setAssoc_cases _ _ _ _ _ h3 with h2 | hnew
        · rcases lookup_setAssoc_cases _ _ _ _ _ h2 with h1 | hnew
          · exact Or.inl h1
          · subst hnew
            exact Or.inr ⟨mkAppRecord_keys _ _ _ _ _ _, mkAppRecord_lookup_status _ _ _ _ _ _⟩
        · subst hnew
          exact Or.inr ⟨mkAppRecord_keys _ _ _ _ _ _, mkAppRecord_lookup_status _ _ _ _ _ _⟩
      · subst hnew
        exact Or.inr ⟨mkAppRecord_keys _ _ _ _ _ _, mkAppRecord_lookup_status _ _ _ _ _ _⟩
  | saveResume uid txt =>
    have happs : ((Op.saveResume uid txt).apply s).applications = s.applications := rfl
    rw [happs] at h
    exact Or.inl h
  | prep req u =>
    simp only [Op.apply, generate_prep_tips_fst] at h
    exact Or.inl h

/-- Witness for C8: the checker fires and stores a fresh record. -/
theorem C8_witness :
    ((Op.startCheck "alice" oracleChecker).apply storeAliceTok).applications.lookup "APP-X"
      = some (checkerRec "alice" oracleChecker) ∧
    (storeAliceTok.applications.lookup "APP-X" = some (checkerRec "alice" oracleChecker) ∨
      ((checkerRec "alice" oracleChecker).map Prod.fst
          = ["user_id", "app_id", "company", "role", "jd_text", "date", "status"] ∧
       (checkerRec "alice" oracleChecker).lookup "status" = some "Upcoming")) := by
  have htr : pyTruthy (mock_get_user_token "alice" storeAliceTok) = true := rfl
  have hd : oracleChecker.draw < 0.5 := by norm_num [oracleChecker]
  have hl : ((Op.startCheck "alice" oracleChecker).apply storeAliceTok).applications.lookup "APP-X"
      = some (checkerRec "alice" oracleChecker) := by
    simp only [Op.apply, check_gmail_and_schedule, htr, Bool.not_true, Bool.false_eq_true,
      if_false, hd, if_true, mock_add_application]
    rfl
  exact ⟨hl, C8_inserted_record_shape _ _ _ _ hl⟩

/-- C4 counterexample: saving a refresh token for a user that already
exists in the store updates that user's record in place — here the
stored record for "alice" changes from token "tok-1" to "tok-2", so it
is not true that no operation ever updates a field of an existing
record. -/
theorem C4_counterexample :
    storeAliceTok.users.lookup "alice"
      = some { refresh_token := some "tok-1", resume_text := none } ∧
    ((Op.oauthCallback "alice" "tok-2").apply storeAliceTok).users.lookup "alice"
      = some { refresh_token := some "tok-2", resume_text := none } ∧
    ({ refresh_token := some "tok-2", resume_text := none } : UserRec)
      ≠ { refresh_token := some "tok-1", resume_text := none } :=
  ⟨rfl, rfl, by decide⟩

/-- C4 amended: no operation ever deletes a record, and application
records are never updated (under fresh generated ids) — but user records
can be updated in place: saving a refresh token or resume text for an
existing user overwrites that field of the existing user record. -/
theorem C4_amended_no_delete (op : Op) (s : Store) (hfresh : op.fresh s) :
    (∀ k r, s.applications.lookup k = some r →
      (op.apply s).applications.lookup k = some r) ∧
    (∀ k, (s.users.lookup k).isSome = true →
      ((op.apply s).users.lookup k).isSome = true) := by
  obtain ⟨hnd, hids⟩ := hfresh
  cases op with
  | oauthCallback uid tok =>
    constructor
    · intro k r hk
      simp only [Op.apply, callback_save_token]
      split
      · exact hk
      · exact hk
    · intro k hk
      simp only [Op.apply, callback_save_token]
      split
      · exact isSome_lookup_setAssoc _ _ _ _ hk
      · exact hk
  | userStatus uid =>
    simp only [Op.apply, get_user_status_fst]
    exact ⟨fun k r hk => hk, fun k hk => hk⟩
  | startCheck uid o =>
    rcases check_gmail_fst_cases uid o s with hc | hc
    · simp only [Op.apply, hc]
      exact ⟨fun k r hk => hk, fun k hk => hk⟩
    · constructor
      · intro k r hk
        simp only [Op.apply, hc]
        have hkne : k ≠ o.appId := by
          intro he2
          rw [he2, hids o.appId (by simp [Op.generatedIds])] at hk
          cases hk
        show (setAssoc o.appId (checkerRec uid o) s.applications).lookup k = some r
        rw [lookup_setAssoc_ne _ _ _ _ hkne]
        exact hk
      · intro k hk
        simp only [Op.apply, hc]
        exact hk
  | getApplications uid o =>
    rcases get_applications_list_fst_cases uid o s with hc | hc
    · simp only [Op.apply, hc]
      exact ⟨fun k r hk => hk, fun k hk => hk⟩
    · constructor
      · intro k r hk
        simp only [Op.apply, hc, addDemoApplications_apps]
        have hne1 : k ≠ o.appId1 := by
          intro he2
          rw [he2, hids o.appId1 (by simp [Op.generatedIds])] at hk
          cases hk
        have hne2 : k ≠ o.appId2 := by
          intro he2
          rw [he2, hids o.appId2 (by simp [Op.generatedIds])] at hk
          cases hk
        have hne3 : k ≠ o.appId3 := by
          intro he2
          rw [he2, hids o.appId3 (by simp [Op.generatedIds])] at hk
          cases hk
        rw [lookup_setAssoc_ne _ _ _ _ hne3, lookup_setAssoc_ne _ _ _ _ hne2,
          lookup_setAssoc_ne _ _ _ _ hne1]
        exact hk
      · intro k hk
        simp only [Op.apply, hc, addDemoApplications_users]
        exact hk
  | saveResume uid txt =>
    constructor
    · intro k r hk
      exact hk
    · intro k hk
      exact isSome_lookup_setAssoc _ _ _ _ hk
  | prep req u =>
    simp only [Op.apply, generate_prep_tips_fst]
    exact ⟨fun k r hk => hk, fun k hk => hk⟩

/-- Witness for the amended C4: the resume-save endpoint keeps existing
records present. -/
theorem C4_amended_witness :
    (Op.saveResume "alice" "new resume").fresh storeAliceTok ∧
    (storeAliceTok.users.lookup "alice").isSome = true ∧
    (((Op.saveResume "alice" "new resume").apply storeAliceTok).users.lookup "alice").isSome
      = true := by
  have hf : (Op.saveResume "alice" "new resume").fresh storeAliceTok := by
    constructor
    · simp [Op.generatedIds]
    · intro i hi
      simp [Op.generatedIds] at hi
  exact ⟨hf, rfl, (C4_amended_no_delete _ _ hf).2 "alice" rfl⟩

/-! ## The well-formedness predicates are invariants of the system -/

theorem WFApps_empty : WFApps { } := by
  intro p hp
  exact absurd hp (List.not_mem_nil p)

theorem WFTokens_empty : WFTokens { } := by
  intro uid t ht
  cases ht

/-- Every backend operation preserves application-record shape
well-formedness. -/
theorem WFApps_preserved (op : Op) (s : Store) (hwf : WFApps s) : WFApps (op.apply s) := by
  intro p hp
  cases op with
  | oauthCallback uid tok =>
    have happs : ((Op.oauthCallback uid tok).apply s).applications = s.applications := by
      simp only [Op.apply, callback_save_token]
      split <;> rfl
    rw [happs] at hp
    exact hwf p hp
  | userStatus uid =>
    simp only [Op.apply, get_user_status_fst] at hp
    exact hwf p hp
  | startCheck uid o =>
    rcases check_gmail_fst_cases uid o s with hc | hc
    · simp only [Op.apply, hc] at hp
      exact hwf p hp
    · simp only [Op.apply, hc] at hp
      rcases mem_setAssoc _ _ _ p hp with hmem | heq
      · exact hwf p hmem
      · exact ⟨uid, o.appId, pyChoice ["MegaCorp", "AlphaTech", "GlobalSoft"] o.companyIdx,
          pyChoice ["Software Engineer", "Data Analyst", "Intern"] o.roleIdx,
          pyChoice MOCK_JDS_values o.jdIdx, o.interviewDate, by rw [heq]; rfl⟩
  | getApplications uid o =>
    rcases get_applications_list_fst_cases uid o s with hc | hc
    · simp only [Op.apply, hc] at hp
      exact hwf p hp
    · simp only [Op.apply, hc, addDemoApplications_apps] at hp
      rcases mem_setAssoc _ _ _ p hp with hp2 | heq
      · rcases mem_setAssoc _ _ _ p hp2 with hp1 | heq
        · rcases mem_setAssoc _ _ _ p hp1 with hp0 | heq
          · exact hwf p hp0
          · exact ⟨uid, o.appId1, "TechCorp Solutions", "Senior Backend Engineer",
              (MOCK_JDS.lookup "JD-001").getD "", o.date1, by rw [heq]; rfl⟩
        · exact ⟨uid, o.appId2, "Innovate Systems", "Junior Data Scientist",
            (MOCK_JDS.lookup "JD-002").getD "", o.date2, by rw [heq]; rfl⟩
      · exact ⟨uid, o.appId3, "Aurora Labs", "SDE Intern",
          (MOCK_JDS.lookup "JD-004").getD "", o.date3, by rw [heq]; rfl⟩
  | saveResume uid txt =>
    exact hwf p hp
  | prep req u =>
    simp only [Op.apply, generate_prep_tips_fst] at hp
    exact hwf p hp

/-- Every backend operation preserves token nonemptiness: in particular
the OAuth callback refuses to store a falsy refresh token. -/
theorem WFTokens_preserved (op : Op) (s : Store) (h : WFTokens s) : WFTokens (op.apply s) := by
  intro uid2 t ht
  cases op with
  | oauthCallback uid tok =>
    simp only [Op.apply, callback_save_token] at ht
    cases hemp : tok.isEmpty with
    | true =>
      rw [hemp] at ht
      exact h uid2 t ht
    | false =>
      rw [hemp] at ht
      simp only [Bool.not_false, if_true] at ht
      by_cases huid : uid2 = uid
      · subst huid
        simp only [mock_get_user_token, mock_save_user_token, lookup_setAssoc_self,
          Option.some_bind, Option.some.injEq] at ht
        exact ht ▸ hemp
      · simp only [mock_get_user_token, mock_save_user_token,
          lookup_setAssoc_ne _ _ _ _ huid] at ht
        exact h uid2 t ht
  | userStatus uid =>
    simp only [Op.apply, get_user_status_fst] at ht
    exact h uid2 t ht
  | startCheck uid o =>
    rcases check_gmail_fst_cases uid o s with hc | hc <;>
      simp only [Op.apply, hc] at ht <;> exact h uid2 t ht
  | getApplications uid o =>
    rcases get_applications_list_fst_cases uid o s with hc | hc
    · simp only [Op.apply, hc] at ht
      exact h uid2 t ht
    · simp only [Op.apply, hc] at ht
      have husers : (addDemoApplications uid o s).users = s.users := rfl
      simp only [mock_get_user_token, husers] at ht
      exact h uid2 t ht
  | saveResume uid txt =>
    by_cases huid : uid2 = uid
    · subst huid
      simp only [Op.apply, mock_save_resume_endpoint, mock_get_user_token,
        lookup_setAssoc_self, Option.some_bind] at ht
      apply h uid2 t
      cases hu : s.users.lookup uid2 with
      | none =>
        rw [hu] at ht
        simp at ht
      | some u0 =>
        rw [hu] at ht
        simp only [Option.getD_some] at ht
        simp only [mock_get_user_token, hu, Option.some_bind]
        exact ht
    · simp only [Op.apply, mock_save_resume_endpoint, mock_get_user_token,
        lookup_setAssoc_ne _ _ _ _ huid] at ht
      exact h uid2 t ht
  | prep req u =>
    simp only [Op.apply, generate_prep_tips_fst] at ht
    exact h uid2 t ht
